import Mathlib

/-!
Verification development for the TokenTrust risk-driven token lifecycle
state machine (risk classifier, token store primitives, lifecycle engine,
verification workflow) and for the merchant dashboard frontend helpers.

The backend core is embedded from its specification (the repository ships
only its documentation and the frontend sources); the frontend helpers are
embedded directly from App.jsx and socket.js.
-/

namespace TokenTrust

/-- Lifecycle state of a trust token: active, frozen, or revoked (terminal). -/
inductive TokenState
  | active
  | frozen
  | revoked
deriving DecidableEq

/-- Status of a risk-analysis Event. -/
inductive EventStatus
  | approved
  | waiting_verification
  | verified_success
  | verified_failure
  | agent_overridden
deriving DecidableEq

/-- Risk tier produced by the classifier. -/
inductive Tier
  | LOW
  | MEDIUM
  | HIGH
deriving DecidableEq

/-- Default action attached to a risk tier. -/
inductive Action
  | approve
  | challenge
  | challenge_high
deriving DecidableEq

/-- Decision an external agent may submit through triage. -/
inductive AgentDecision
  | approve
  | challenge
  | challenge_high
  | revoke
deriving DecidableEq

/-- Typed failure taxonomy of the core. -/
inductive Err
  | InvalidScore
  | TokenNotFound
  | TokenRevoked
  | EventNotFound
  | EventNotOpen
  | EventAlreadyTerminal
  | VerificationExpired
deriving DecidableEq

/-- A trust token record held by the Token Store. -/
structure Token where
  state : TokenState
  merchantId : String
  amount : Int
deriving DecidableEq

/-- A risk-analysis Event record held by the Event Store. -/
structure Event where
  tokenId : String
  score : Int
  tier : Tier
  decision : Action
  status : EventStatus
  deadline : Nat
  autoRevokeCandidate : Bool
deriving DecidableEq

/-- One immutable audit record of a state-affecting action. -/
structure AuditEntry where
  action : String
  actor : String
  target : String
  reason : String
deriving DecidableEq

/-- Shared state: Token Store, Event Store, and append-only Audit Log. -/
structure Sys where
  tokens : String → Option Token
  events : String → Option Event
  audit : List AuditEntry

/-- Canonical threshold: auto-approve up to this score. -/
def APPROVE_MAX : Int := 49

/-- Canonical threshold: medium risk ends here. -/
def MEDIUM_MAX : Int := 79

/-- Verification window in seconds (config default 600). -/
def VERIFICATION_TIMEOUT : Nat := 600

/-- Modelled from the spec: `classify` of the Risk Classifier (the backend
source file holding it is not in the repository snapshot). Scores outside
0..100 fail with InvalidScore; 0..49 is LOW/approve, 50..79 is
MEDIUM/challenge, 80..100 is HIGH/challenge_high. -/
def classify (score : Int) : Except Err (Tier × Action) :=
  if score < 0 ∨ 100 < score then .error .InvalidScore
  else if score ≤ APPROVE_MAX then .ok (.LOW, .approve)
  else if score ≤ MEDIUM_MAX then .ok (.MEDIUM, .challenge)
  else .ok (.HIGH, .challenge_high)

/-- Overwrite the state field of the token stored at `tid`. -/
def setTokenState (s : Sys) (tid : String) (st : TokenState) : Sys :=
  { s with tokens := fun i => if i = tid then (s.tokens i).map (fun t => { t with state := st }) else s.tokens i }

/-- Store event `ev` at id `eid`. -/
def setEvent (s : Sys) (eid : String) (ev : Event) : Sys :=
  { s with events := fun i => if i = eid then some ev else s.events i }

/-- Append one entry to the audit log. -/
def appendAudit (s : Sys) (e : AuditEntry) : Sys :=
  { s with audit := s.audit ++ [e] }

/-- Modelled from the spec: Token Store primitive `freeze` (backend source
absent). Active tokens transition to frozen with an audit entry; frozen
tokens no-op but still audit; revoked tokens fail with TokenRevoked; a
missing token fails with TokenNotFound. -/
def freeze (tid reason actor : String) (s : Sys) : Sys × Except Err Unit :=
  match s.tokens tid with
  | none => (s, .error .TokenNotFound)
  | some tok =>
    match tok.state with
    | .revoked => (s, .error .TokenRevoked)
    | .active =>
        (appendAudit (setTokenState s tid .frozen) ⟨"freeze", actor, tid, reason⟩, .ok ())
    | .frozen =>
        (appendAudit s ⟨"freeze(no-op)", actor, tid, reason⟩, .ok ())

/-- Modelled from the spec: Token Store primitive `unfreeze` (backend source
absent). Frozen tokens transition to active with an audit entry; active
tokens no-op but still audit; revoked tokens fail with TokenRevoked. -/
def unfreeze (tid actor reason : String) (s : Sys) : Sys × Except Err Unit :=
  match s.tokens tid with
  | none => (s, .error .TokenNotFound)
  | some tok =>
    match tok.state with
    | .revoked => (s, .error .TokenRevoked)
    | .frozen =>
        (appendAudit (setTokenState s tid .active) ⟨"unfreeze", actor, tid, reason⟩, .ok ())
    | .active =>
        (appendAudit s ⟨"unfreeze(no-op)", actor, tid, reason⟩, .ok ())

/-- Modelled from the spec: Token Store primitive `revoke` (backend source
absent). Active or frozen tokens transition to revoked with an audit entry;
already revoked tokens no-op but still audit; the transition is one-way. -/
def revoke (tid actor reason : String) (s : Sys) : Sys × Except Err Unit :=
  match s.tokens tid with
  | none => (s, .error .TokenNotFound)
  | some tok =>
    match tok.state with
    | .revoked =>
        (appendAudit s ⟨"revoke(no-op)", actor, tid, reason⟩, .ok ())
    | _ =>
        (appendAudit (setTokenState s tid .revoked) ⟨"revoke", actor, tid, reason⟩, .ok ())

/-- Current lifecycle state of the token at `tid`, if present. -/
def tokenState (s : Sys) (tid : String) : Option TokenState :=
  (s.tokens tid).map Token.state

/-- Result payload of a successful analyze call. -/
structure AnalyzeOut where
  eventId : String
  decision : Action
  eventStatus : EventStatus
  tokenStatus : TokenState
deriving DecidableEq

/-- Modelled from the spec: Lifecycle Engine `analyze` (backend source
absent). Validates the token exists and is not revoked, classifies the
score, creates the Event (approved for approve, waiting_verification with
deadline now + timeout for challenge or challenge_high, the latter marked
auto-revoke candidate), freezes the token on challenge, leaves the token
untouched on approve, and audits the analysis. `eid` is the fresh event
id produced by the id generator. -/
def analyze (tid eid actor : String) (score : Int) (now : Nat) (s : Sys) :
    Sys × Except Err AnalyzeOut :=
  match s.tokens tid with
  | none => (s, .error .TokenNotFound)
  | some tok =>
    if tok.state = .revoked then (s, .error .TokenRevoked)
    else
      match classify score with
      | .error e => (s, .error e)
      | .ok (tier, .approve) =>
          (appendAudit (setEvent s eid ⟨tid, score, tier, .approve, .approved, 0, false⟩)
             ⟨"analyze", actor, eid, "approve"⟩,
           .ok ⟨eid, .approve, .approved, tok.state⟩)
      | .ok (tier, act) =>
          (appendAudit
             (freeze tid "risk challenge" actor
               (setEvent s eid
                 ⟨tid, score, tier, act, .waiting_verification,
                   now + VERIFICATION_TIMEOUT, act = .challenge_high⟩)).1
             ⟨"analyze", actor, eid, "challenge"⟩,
           .ok ⟨eid, act, .waiting_verification, .frozen⟩)

/-- Result payload of a successful verification submission. -/
structure VerifyOut where
  finalStatus : EventStatus
  tokenStatus : TokenState
deriving DecidableEq

/-- Modelled from the spec: Verification Workflow `submitVerification`
(backend source absent). Fails EventNotFound on an unknown event,
EventNotOpen when the status is not waiting_verification, and
VerificationExpired when now is past the deadline; otherwise a true
verification moves the Event to verified_success and unfreezes the token,
and a false one moves it to verified_failure and revokes the token, each
with a verify audit entry. All checks precede every mutation. -/
def submitVerification (eid : String) (verified : Bool) (responder : String)
    (now : Nat) (s : Sys) : Sys × Except Err VerifyOut :=
  match s.events eid with
  | none => (s, .error .EventNotFound)
  | some ev =>
    if ev.status ≠ .waiting_verification then (s, .error .EventNotOpen)
    else if ev.deadline < now then (s, .error .VerificationExpired)
    else
      match s.tokens ev.tokenId with
      | none => (s, .error .TokenNotFound)
      | some tok =>
        if verified then
          if tok.state = .revoked then (s, .error .TokenRevoked)
          else
            (appendAudit
               (unfreeze ev.tokenId responder "verification success"
                 (setEvent s eid { ev with status := .verified_success })).1
               ⟨"verify", responder, eid, "success"⟩,
             .ok ⟨.verified_success, .active⟩)
        else
          (appendAudit
             (revoke ev.tokenId responder "verification failure"
               (setEvent s eid { ev with status := .verified_failure })).1
             ⟨"verify", responder, eid, "failure"⟩,
           .ok ⟨.verified_failure, .revoked⟩)

/-- Terminal statuses are the verification outcomes and agent overrides. -/
def isTerminal : EventStatus → Bool
  | .verified_success => true
  | .verified_failure => true
  | .agent_overridden => true
  | _ => false

/-- Modelled from the spec: lazy deadline expiry `expireIfDue` (backend
source absent). When the event is still waiting_verification and now is
past the deadline, the Event moves to verified_failure, the token is
revoked, and a verify timeout entry is audited; otherwise nothing
changes. -/
def expireIfDue (eid : String) (now : Nat) (s : Sys) : Sys × Except Err Unit :=
  match s.events eid with
  | none => (s, .error .EventNotFound)
  | some ev =>
    if ev.status = .waiting_verification ∧ ev.deadline < now then
      match s.tokens ev.tokenId with
      | none => (s, .error .TokenNotFound)
      | some _ =>
        (appendAudit
           (revoke ev.tokenId "system" "verification timeout"
             (setEvent s eid { ev with status := .verified_failure })).1
           ⟨"verify", "system", eid, "timeout"⟩,
         .ok ())
    else (s, .ok ())

/-- Modelled from the spec: Verification Workflow `triage` (backend source
absent). Fails EventNotFound on an unknown event and EventAlreadyTerminal
once the Event reached a terminal status. Approve overrides the Event and
unfreezes; challenge and challenge_high re-open waiting_verification with
a refreshed deadline; revoke overrides the Event and revokes the token. -/
def triage (eid agent reasoning : String) (d : AgentDecision) (now : Nat)
    (s : Sys) : Sys × Except Err Unit :=
  match s.events eid with
  | none => (s, .error .EventNotFound)
  | some ev =>
    if isTerminal ev.status then (s, .error .EventAlreadyTerminal)
    else
      match d with
      | .approve =>
          match s.tokens ev.tokenId with
          | none => (s, .error .TokenNotFound)
          | some tok =>
            if tok.state = .revoked then (s, .error .TokenRevoked)
            else
              (appendAudit
                 (unfreeze ev.tokenId agent reasoning
                   (setEvent s eid { ev with status := .agent_overridden })).1
                 ⟨"triage", agent, eid, reasoning⟩,
               .ok ())
      | .challenge =>
          (appendAudit
             (setEvent s eid
               { ev with status := .waiting_verification,
                         deadline := now + VERIFICATION_TIMEOUT })
             ⟨"triage", agent, eid, reasoning⟩,
           .ok ())
      | .challenge_high =>
          (appendAudit
             (setEvent s eid
               { ev with status := .waiting_verification,
                         deadline := now + VERIFICATION_TIMEOUT })
             ⟨"triage", agent, eid, reasoning⟩,
           .ok ())
      | .revoke =>
          match s.tokens ev.tokenId with
          | none => (s, .error .TokenNotFound)
          | some _ =>
            (appendAudit
               (revoke ev.tokenId agent reasoning
                 (setEvent s eid { ev with status := .agent_overridden })).1
               ⟨"triage", agent, eid, reasoning⟩,
             .ok ())

/-- One call of any state-affecting operation of the core. -/
inductive Op
  | freeze (tid reason actor : String)
  | unfreeze (tid actor reason : String)
  | revoke (tid actor reason : String)
  | analyze (tid eid actor : String) (score : Int) (now : Nat)
  | submitVerification (eid : String) (verified : Bool) (responder : String) (now : Nat)
  | triage (eid agent reasoning : String) (d : AgentDecision) (now : Nat)
  | expireIfDue (eid : String) (now : Nat)

/-- Error component of an Except result. -/
def errOf {α : Type} : Except Err α → Option Err
  | .error e => some e
  | .ok _ => none

/-- Run one operation: the state it leaves behind and its error, if any. -/
def runOp (op : Op) (s : Sys) : Sys × Option Err :=
  match op with
  | .freeze t r a => ((freeze t r a s).1, errOf (freeze t r a s).2)
  | .unfreeze t a r => ((unfreeze t a r s).1, errOf (unfreeze t a r s).2)
  | .revoke t a r => ((revoke t a r s).1, errOf (revoke t a r s).2)
  | .analyze t e a sc n => ((analyze t e a sc n s).1, errOf (analyze t e a sc n s).2)
  | .submitVerification e v rsp n =>
      ((submitVerification e v rsp n s).1, errOf (submitVerification e v rsp n s).2)
  | .triage e ag rs d n => ((triage e ag rs d n s).1, errOf (triage e ag rs d n s).2)
  | .expireIfDue e n => ((expireIfDue e n s).1, errOf (expireIfDue e n s).2)

/-- State left behind by one operation. -/
def applyOp (op : Op) (s : Sys) : Sys :=
  (runOp op s).1

/-- State after a sequence of operations. -/
def runOps (ops : List Op) (s : Sys) : Sys :=
  ops.foldl (fun t op => applyOp op t) s

/-- Concrete store used by witnesses: one frozen token tA owning one open
event eA with deadline 100. -/
def sampleOpenSys : Sys :=
  ⟨fun i => if i = "tA" then some ⟨.frozen, "mA", 5⟩ else none,
   fun i => if i = "eA" then
      some ⟨"tA", 65, .MEDIUM, .challenge, .waiting_verification, 100, false⟩
    else none,
   []⟩

end TokenTrust

namespace Dashboard

/-- One row of the token list kept by the merchant dashboard, embedded from
the fields App.jsx renders and updates. -/
structure TokenRow where
  token_id : String
  status : String
  customer_id : String
  amount : Int
  created_at : String
deriving DecidableEq

/-- Embedded from App.jsx: the token.frozen socket handler maps over the
previous token list and replaces the status of rows whose token_id matches
the payload with the string frozen, spreading all other fields through. -/
def onTokenFrozen (eventTokenId : String) (tokens : List TokenRow) : List TokenRow :=
  tokens.map fun token =>
    if token.token_id = eventTokenId then { token with status := "frozen" } else token

/-- Embedded from App.jsx: the token.revoked socket handler maps over the
previous token list and replaces the status of rows whose token_id matches
the payload with the string revoked, spreading all other fields through. -/
def onTokenRevoked (eventTokenId : String) (tokens : List TokenRow) : List TokenRow :=
  tokens.map fun token =>
    if token.token_id = eventTokenId then { token with status := "revoked" } else token

/-- A socket connection as socket.js observes it: the endpoint it was opened
against and the handlers registered on it, in registration order. -/
structure Socket where
  url : String
  handlers : List String
deriving DecidableEq

/-- Embedded from socket.js: the module base url. -/
def SOCKET_URL : String := "http://localhost:8000"

/-- Register a handler on a socket, as socket.on does. -/
def socketOn (sock : Socket) (event : String) : Socket :=
  { sock with handlers := sock.handlers ++ [event] }

/-- The service object socket.js exports: a nullable socket and a connected
flag. -/
structure SocketService where
  socket : Option Socket
  isConnected : Bool
deriving DecidableEq

/-- Embedded from socket.js: connect returns the existing socket unchanged
when one is present; otherwise it opens a socket against the merchant
namespace, registers the connect, disconnect and joined handlers, stores
it on the service and returns it. -/
def connect (svc : SocketService) : Socket × SocketService :=
  match svc.socket with
  | some s => (s, svc)
  | none =>
    let sock : Socket := ⟨SOCKET_URL ++ "/merchant", []⟩
    let sock := socketOn (socketOn (socketOn sock "connect") "disconnect") "joined"
    (sock, { svc with socket := some sock })

end Dashboard

namespace TokenTrust

theorem classify_invalid (score : Int) (h : score < 0 ∨ 100 < score) :
    classify score = .error .InvalidScore := by
  simp only [classify, APPROVE_MAX, MEDIUM_MAX]
  split_ifs
  rfl

theorem classify_low (score : Int) (h0 : 0 ≤ score) (h1 : score ≤ 49) :
    classify score = .ok (.LOW, .approve) := by
  simp only [classify, APPROVE_MAX, MEDIUM_MAX]
  split_ifs <;> first | rfl | omega

theorem classify_medium (score : Int) (h0 : 50 ≤ score) (h1 : score ≤ 79) :
    classify score = .ok (.MEDIUM, .challenge) := by
  simp only [classify, APPROVE_MAX, MEDIUM_MAX]
  split_ifs <;> first | rfl | omega

theorem classify_high (score : Int) (h0 : 80 ≤ score) (h1 : score ≤ 100) :
    classify score = .ok (.HIGH, .challenge_high) := by
  simp only [classify, APPROVE_MAX, MEDIUM_MAX]
  split_ifs <;> first | rfl | omega

/-- C1: classify is a pure total function whose tiers partition 0..100
exactly at 49/50 and 79/80 — every score at most 49 yields LOW/approve,
every score in 50..79 yields MEDIUM/challenge, every score in 80..100
yields HIGH/challenge_high — and every score outside 0..100 fails with
InvalidScore, returning no tier. -/
theorem classify_partition (score : Int) :
    ((score < 0 ∨ 100 < score) → classify score = .error .InvalidScore) ∧
    (0 ≤ score ∧ score ≤ 49 → classify score = .ok (.LOW, .approve)) ∧
    (50 ≤ score ∧ score ≤ 79 → classify score = .ok (.MEDIUM, .challenge)) ∧
    (80 ≤ score ∧ score ≤ 100 → classify score = .ok (.HIGH, .challenge_high)) :=
  ⟨classify_invalid score,
   fun h => classify_low score h.1 h.2,
   fun h => classify_medium score h.1 h.2,
   fun h => classify_high score h.1 h.2⟩

theorem tokenState_appendAudit (s : Sys) (e : AuditEntry) (x : String) :
    tokenState (appendAudit s e) x = tokenState s x := rfl

theorem tokenState_setEvent (s : Sys) (eid : String) (ev : Event) (x : String) :
    tokenState (setEvent s eid ev) x = tokenState s x := rfl

theorem tokenState_setTokenState (s : Sys) (t x : String) (st : TokenState) :
    tokenState (setTokenState s t st) x =
      if x = t then (s.tokens x).map (fun _ => st) else tokenState s x := by
  simp only [tokenState, setTokenState]
  split_ifs with hx
  · subst hx
    cases s.tokens x <;> rfl
  · rfl

theorem events_appendAudit (s : Sys) (e : AuditEntry) :
    (appendAudit s e).events = s.events := rfl

theorem events_setTokenState (s : Sys) (t : String) (st : TokenState) :
    (setTokenState s t st).events = s.events := rfl

theorem events_freeze (t r a : String) (s : Sys) :
    (freeze t r a s).1.events = s.events := by
  unfold freeze
  split
  · rfl
  · split <;> rfl

theorem events_unfreeze (t a r : String) (s : Sys) :
    (unfreeze t a r s).1.events = s.events := by
  unfold unfreeze
  split
  · rfl
  · split <;> rfl

theorem events_revoke (t a r : String) (s : Sys) :
    (revoke t a r s).1.events = s.events := by
  unfold revoke
  split
  · rfl
  · split <;> rfl

theorem freeze_preserves_revoked (t r a x : String) (s : Sys)
    (h : tokenState s x = some .revoked) :
    tokenState (freeze t r a s).1 x = some .revoked := by
  unfold freeze
  split
  · exact h
  next tok htok =>
    split
    · exact h
    next hst =>
      show tokenState (appendAudit (setTokenState s t .frozen) ⟨"freeze", a, t, r⟩) x
            = some .revoked
      rw [tokenState_appendAudit, tokenState_setTokenState]
      split_ifs with hx
      · exfalso
        subst hx
        rw [tokenState, htok] at h
        simp [hst] at h
      · exact h
    next hst =>
      show tokenState (appendAudit s ⟨"freeze(no-op)", a, t, r⟩) x = some .revoked
      rw [tokenState_appendAudit]
      exact h

theorem unfreeze_preserves_revoked (t a r x : String) (s : Sys)
    (h : tokenState s x = some .revoked) :
    tokenState (unfreeze t a r s).1 x = some .revoked := by
  unfold unfreeze
  split
  · exact h
  next tok htok =>
    split
    · exact h
    next hst =>
      show tokenState (appendAudit (setTokenState s t .active) ⟨"unfreeze", a, t, r⟩) x
            = some .revoked
      rw [tokenState_appendAudit, tokenState_setTokenState]
      split_ifs with hx
      · exfalso
        subst hx
        rw [tokenState, htok] at h
        simp [hst] at h
      · exact h
    next hst =>
      show tokenState (appendAudit s ⟨"unfreeze(no-op)", a, t, r⟩) x = some .revoked
      rw [tokenState_appendAudit]
      exact h

theorem revoke_preserves_revoked (t a r x : String) (s : Sys)
    (h : tokenState s x = some .revoked) :
    tokenState (revoke t a r s).1 x = some .revoked := by
  unfold revoke
  split
  · exact h
  next tok htok =>
    split
    · show tokenState (appendAudit s ⟨"revoke(no-op)", a, t, r⟩) x = some .revoked
      rw [tokenState_appendAudit]
      exact h
    next hst =>
      show tokenState (appendAudit (setTokenState s t .revoked) ⟨"revoke", a, t, r⟩) x
            = some .revoked
      rw [tokenState_appendAudit, tokenState_setTokenState]
      split_ifs with hx
      · subst hx
        rw [htok]
        rfl
      · exact h

theorem analyze_preserves_revoked (t e a : String) (sc : Int) (n : Nat) (x : String)
    (s : Sys) (h : tokenState s x = some .revoked) :
    tokenState (analyze t e a sc n s).1 x = some .revoked := by
  unfold analyze
  repeat' split
  all_goals first
    | exact h
    | (show tokenState (appendAudit _ _) x = some .revoked
       rw [tokenState_appendAudit]
       first
        | (rw [tokenState_setEvent]; exact h)
        | (apply freeze_preserves_revoked; rw [tokenState_setEvent]; exact h)
        | (apply unfreeze_preserves_revoked; rw [tokenState_setEvent]; exact h)
        | (apply revoke_preserves_revoked; rw [tokenState_setEvent]; exact h))

theorem submitVerification_preserves_revoked (e : String) (v : Bool) (rsp : String)
    (n : Nat) (x : String) (s : Sys) (h : tokenState s x = some .revoked) :
    tokenState (submitVerification e v rsp n s).1 x = some .revoked := by
  unfold submitVerification
  repeat' split
  all_goals first
    | exact h
    | (show tokenState (appendAudit _ _) x = some .revoked
       rw [tokenState_appendAudit]
       first
        | (rw [tokenState_setEvent]; exact h)
        | (apply freeze_preserves_revoked; rw [tokenState_setEvent]; exact h)
        | (apply unfreeze_preserves_revoked; rw [tokenState_setEvent]; exact h)
        | (apply revoke_preserves_revoked; rw [tokenState_setEvent]; exact h))

theorem triage_preserves_revoked (e ag rs : String) (d : AgentDecision) (n : Nat)
    (x : String) (s : Sys) (h : tokenState s x = some .revoked) :
    tokenState (triage e ag rs d n s).1 x = some .revoked := by
  unfold triage
  repeat' split
  all_goals first
    | exact h
    | (show tokenState (appendAudit _ _) x = some .revoked
       rw [tokenState_appendAudit]
       first
        | (rw [tokenState_setEvent]; exact h)
        | (apply freeze_preserves_revoked; rw [tokenState_setEvent]; exact h)
        | (apply unfreeze_preserves_revoked; rw [tokenState_setEvent]; exact h)
        | (apply revoke_preserves_revoked; rw [tokenState_setEvent]; exact h))

theorem expireIfDue_preserves_revoked (e : String) (n : Nat) (x : String) (s : Sys)
    (h : tokenState s x = some .revoked) :
    tokenState (expireIfDue e n s).1 x = some .revoked := by
  unfold expireIfDue
  repeat' split
  all_goals first
    | exact h
    | (show tokenState (appendAudit _ _) x = some .revoked
       rw [tokenState_appendAudit]
       first
        | (rw [tokenState_setEvent]; exact h)
        | (apply freeze_preserves_revoked; rw [tokenState_setEvent]; exact h)
        | (apply unfreeze_preserves_revoked; rw [tokenState_setEvent]; exact h)
        | (apply revoke_preserves_revoked; rw [tokenState_setEvent]; exact h))

theorem applyOp_preserves_revoked (op : Op) (x : String) (s : Sys)
    (h : tokenState s x = some .revoked) :
    tokenState (applyOp op s) x = some .revoked := by
  cases op with
  | freeze t r a => exact freeze_preserves_revoked t r a x s h
  | unfreeze t a r => exact unfreeze_preserves_revoked t a r x s h
  | revoke t a r => exact revoke_preserves_revoked t a r x s h
  | analyze t e a sc n => exact analyze_preserves_revoked t e a sc n x s h
  | submitVerification e v rsp n => exact submitVerification_preserves_revoked e v rsp n x s h
  | triage e ag rs d n => exact triage_preserves_revoked e ag rs d n x s h
  | expireIfDue e n => exact expireIfDue_preserves_revoked e n x s h

theorem runOps_preserves_revoked (ops : List Op) (x : String) (s : Sys)
    (h : tokenState s x = some .revoked) :
    tokenState (runOps ops s) x = some .revoked := by
  induction ops generalizing s with
  | nil => exact h
  | cons op rest ih => exact ih (applyOp op s) (applyOp_preserves_revoked op x s h)

theorem revoked_freeze_fails (s : Sys) (tid : String) (tok : Token)
    (htok : s.tokens tid = some tok) (hst : tok.state = .revoked) (r a : String) :
    freeze tid r a s = (s, .error .TokenRevoked) := by
  unfold freeze
  simp only [htok]
  simp only [hst]

theorem revoked_unfreeze_fails (s : Sys) (tid : String) (tok : Token)
    (htok : s.tokens tid = some tok) (hst : tok.state = .revoked) (a r : String) :
    unfreeze tid a r s = (s, .error .TokenRevoked) := by
  unfold unfreeze
  simp only [htok]
  simp only [hst]

theorem revoked_revoke_noop (s : Sys) (tid : String) (tok : Token)
    (htok : s.tokens tid = some tok) (hst : tok.state = .revoked) (a r : String) :
    revoke tid a r s = (appendAudit s ⟨"revoke(no-op)", a, tid, r⟩, .ok ()) := by
  unfold revoke
  simp only [htok]
  simp only [hst]

/-- C2: a revoked token is absorbing — freeze and unfreeze on it fail with
TokenRevoked leaving the whole state untouched, revoke on it is a state
no-op (the token map is unchanged), and no sequence of operations of the
system ever moves the token out of the revoked state. -/
theorem revoked_is_absorbing (s : Sys) (tid : String)
    (h : tokenState s tid = some .revoked) :
    (∀ r a, freeze tid r a s = (s, .error .TokenRevoked)) ∧
    (∀ a r, unfreeze tid a r s = (s, .error .TokenRevoked)) ∧
    (∀ a r, (revoke tid a r s).2 = .ok () ∧ (revoke tid a r s).1.tokens = s.tokens) ∧
    (∀ ops : List Op, tokenState (runOps ops s) tid = some .revoked) := by
  obtain ⟨tok, htok, hst⟩ : ∃ tok, s.tokens tid = some tok ∧ tok.state = .revoked := by
    rw [tokenState] at h
    cases hm : s.tokens tid with
    | none =>
      rw [hm] at h
      simp at h
    | some tok =>
      rw [hm] at h
      simp at h
      exact ⟨tok, rfl, h⟩
  refine ⟨fun r a => revoked_freeze_fails s tid tok htok hst r a,
          fun a r => revoked_unfreeze_fails s tid tok htok hst a r,
          fun a r => ?_,
          fun ops => runOps_preserves_revoked ops tid s h⟩
  rw [revoked_revoke_noop s tid tok htok hst a r]
  exact ⟨rfl, rfl⟩

/-- C2 witness: the absorbing property applied to a store holding one
revoked token. -/
theorem revoked_is_absorbing_witness :
    tokenState ⟨fun i => if i = "t1" then some ⟨.revoked, "m1", 10⟩ else none,
                fun _ => none, []⟩ "t1" = some .revoked ∧
    ((∀ r a, freeze "t1" r a ⟨fun i => if i = "t1" then some ⟨.revoked, "m1", 10⟩ else none,
        fun _ => none, []⟩ =
        (⟨fun i => if i = "t1" then some ⟨.revoked, "m1", 10⟩ else none,
          fun _ => none, []⟩, .error .TokenRevoked)) ∧
     (∀ a r, unfreeze "t1" a r ⟨fun i => if i = "t1" then some ⟨.revoked, "m1", 10⟩ else none,
        fun _ => none, []⟩ =
        (⟨fun i => if i = "t1" then some ⟨.revoked, "m1", 10⟩ else none,
          fun _ => none, []⟩, .error .TokenRevoked)) ∧
     (∀ a r, (revoke "t1" a r ⟨fun i => if i = "t1" then some ⟨.revoked, "m1", 10⟩ else none,
        fun _ => none, []⟩).2 = .ok () ∧
        (revoke "t1" a r ⟨fun i => if i = "t1" then some ⟨.revoked, "m1", 10⟩ else none,
          fun _ => none, []⟩).1.tokens =
        Sys.tokens ⟨fun i => if i = "t1" then some ⟨.revoked, "m1", 10⟩ else none,
          fun _ => none, []⟩) ∧
     (∀ ops : List Op,
        tokenState (runOps ops ⟨fun i => if i = "t1" then some ⟨.revoked, "m1", 10⟩ else none,
          fun _ => none, []⟩) "t1" = some .revoked)) :=
  ⟨by simp [tokenState],
   revoked_is_absorbing _ "t1" (by simp [tokenState])⟩

theorem errOf_eq_some {α : Type} {x : Except Err α} {e : Err} (h : errOf x = some e) :
    x = .error e := by
  cases x with
  | error er =>
    simp [errOf] at h
    rw [h]
  | ok v => simp [errOf] at h

theorem freeze_error_frame (t r a : String) (s : Sys) (e : Err) :
    (freeze t r a s).2 = .error e → (freeze t r a s).1 = s := by
  unfold freeze
  repeat' split
  all_goals intro h
  all_goals first | rfl | (exact absurd h (by simp))

theorem unfreeze_error_frame (t a r : String) (s : Sys) (e : Err) :
    (unfreeze t a r s).2 = .error e → (unfreeze t a r s).1 = s := by
  unfold unfreeze
  repeat' split
  all_goals intro h
  all_goals first | rfl | (exact absurd h (by simp))

theorem revoke_error_frame (t a r : String) (s : Sys) (e : Err) :
    (revoke t a r s).2 = .error e → (revoke t a r s).1 = s := by
  unfold revoke
  repeat' split
  all_goals intro h
  all_goals first | rfl | (exact absurd h (by simp))

theorem analyze_error_frame (t e2 a : String) (sc : Int) (n : Nat) (s : Sys) (e : Err) :
    (analyze t e2 a sc n s).2 = .error e → (analyze t e2 a sc n s).1 = s := by
  unfold analyze
  repeat' split
  all_goals intro h
  all_goals first | rfl | (exact absurd h (by simp))

theorem submitVerification_error_frame (e2 : String) (v : Bool) (rsp : String) (n : Nat)
    (s : Sys) (e : Err) :
    (submitVerification e2 v rsp n s).2 = .error e
      → (submitVerification e2 v rsp n s).1 = s := by
  unfold submitVerification
  repeat' split
  all_goals intro h
  all_goals first | rfl | (exact absurd h (by simp))

theorem triage_error_frame (e2 ag rs : String) (d : AgentDecision) (n : Nat) (s : Sys)
    (e : Err) :
    (triage e2 ag rs d n s).2 = .error e → (triage e2 ag rs d n s).1 = s := by
  unfold triage
  repeat' split
  all_goals intro h
  all_goals first | rfl | (exact absurd h (by simp))

theorem expireIfDue_error_frame (e2 : String) (n : Nat) (s : Sys) (e : Err) :
    (expireIfDue e2 n s).2 = .error e → (expireIfDue e2 n s).1 = s := by
  unfold expireIfDue
  repeat' split
  all_goals intro h
  all_goals first | rfl | (exact absurd h (by simp))

/-- C3: every failing call of any operation of the core leaves the whole
state — Token Store, Event Store and Audit Log — exactly as it was: a
failure commits zero state change and appends zero Audit Entries. -/
theorem op_failure_frame (op : Op) (s : Sys) (e : Err) :
    (runOp op s).2 = some e →
      (runOp op s).1 = s ∧ (runOp op s).1.audit = s.audit ∧
      (runOp op s).1.tokens = s.tokens ∧ (runOp op s).1.events = s.events := by
  have hall : ∀ s2 : Sys, s2 = s →
      s2 = s ∧ s2.audit = s.audit ∧ s2.tokens = s.tokens ∧ s2.events = s.events :=
    fun s2 hh => ⟨hh, by rw [hh], by rw [hh], by rw [hh]⟩
  cases op with
  | freeze t r a =>
    exact fun h => hall _ (freeze_error_frame t r a s e (errOf_eq_some h))
  | unfreeze t a r =>
    exact fun h => hall _ (unfreeze_error_frame t a r s e (errOf_eq_some h))
  | revoke t a r =>
    exact fun h => hall _ (revoke_error_frame t a r s e (errOf_eq_some h))
  | analyze t e2 a sc n =>
    exact fun h => hall _ (analyze_error_frame t e2 a sc n s e (errOf_eq_some h))
  | submitVerification e2 v rsp n =>
    exact fun h => hall _ (submitVerification_error_frame e2 v rsp n s e (errOf_eq_some h))
  | triage e2 ag rs d n =>
    exact fun h => hall _ (triage_error_frame e2 ag rs d n s e (errOf_eq_some h))
  | expireIfDue e2 n =>
    exact fun h => hall _ (expireIfDue_error_frame e2 n s e (errOf_eq_some h))

/-- C3 witness: freezing an unknown token fails with TokenNotFound and
leaves the empty state untouched. -/
theorem op_failure_frame_witness :
    (runOp (.freeze "t9" "r" "a") ⟨fun _ => none, fun _ => none, []⟩).2
        = some .TokenNotFound ∧
    ((runOp (.freeze "t9" "r" "a") ⟨fun _ => none, fun _ => none, []⟩).1
        = ⟨fun _ => none, fun _ => none, []⟩ ∧
     (runOp (.freeze "t9" "r" "a") ⟨fun _ => none, fun _ => none, []⟩).1.audit
        = Sys.audit ⟨fun _ => none, fun _ => none, []⟩ ∧
     (runOp (.freeze "t9" "r" "a") ⟨fun _ => none, fun _ => none, []⟩).1.tokens
        = Sys.tokens ⟨fun _ => none, fun _ => none, []⟩ ∧
     (runOp (.freeze "t9" "r" "a") ⟨fun _ => none, fun _ => none, []⟩).1.events
        = Sys.events ⟨fun _ => none, fun _ => none, []⟩) :=
  ⟨rfl, op_failure_frame (.freeze "t9" "r" "a") ⟨fun _ => none, fun _ => none, []⟩
     .TokenNotFound rfl⟩

theorem tokens_appendAudit (s : Sys) (e : AuditEntry) :
    (appendAudit s e).tokens = s.tokens := rfl

theorem audit_appendAudit (s : Sys) (e : AuditEntry) :
    (appendAudit s e).audit = s.audit ++ [e] := rfl

theorem audit_setTokenState (s : Sys) (t : String) (st : TokenState) :
    (setTokenState s t st).audit = s.audit := rfl

theorem tokens_setEvent (s : Sys) (eid : String) (ev : Event) :
    (setEvent s eid ev).tokens = s.tokens := rfl

theorem audit_setEvent (s : Sys) (eid : String) (ev : Event) :
    (setEvent s eid ev).audit = s.audit := rfl

theorem tokens_setTokenState_self (s : Sys) (tid : String) (tok : Token)
    (st : TokenState) (htok : s.tokens tid = some tok) :
    (setTokenState s tid st).tokens tid = some { tok with state := st } := by
  simp [setTokenState, htok]

theorem freeze_active (s : Sys) (tid : String) (tok : Token)
    (htok : s.tokens tid = some tok) (hst : tok.state = .active) (r a : String) :
    freeze tid r a s
      = (appendAudit (setTokenState s tid .frozen) ⟨"freeze", a, tid, r⟩, .ok ()) := by
  unfold freeze
  simp only [htok]
  simp only [hst]

theorem freeze_frozen (s : Sys) (tid : String) (tok : Token)
    (htok : s.tokens tid = some tok) (hst : tok.state = .frozen) (r a : String) :
    freeze tid r a s = (appendAudit s ⟨"freeze(no-op)", a, tid, r⟩, .ok ()) := by
  unfold freeze
  simp only [htok]
  simp only [hst]

theorem unfreeze_frozen (s : Sys) (tid : String) (tok : Token)
    (htok : s.tokens tid = some tok) (hst : tok.state = .frozen) (a r : String) :
    unfreeze tid a r s
      = (appendAudit (setTokenState s tid .active) ⟨"unfreeze", a, tid, r⟩, .ok ()) := by
  unfold unfreeze
  simp only [htok]
  simp only [hst]

theorem unfreeze_active (s : Sys) (tid : String) (tok : Token)
    (htok : s.tokens tid = some tok) (hst : tok.state = .active) (a r : String) :
    unfreeze tid a r s = (appendAudit s ⟨"unfreeze(no-op)", a, tid, r⟩, .ok ()) := by
  unfold unfreeze
  simp only [htok]
  simp only [hst]

theorem revoke_active (s : Sys) (tid : String) (tok : Token)
    (htok : s.tokens tid = some tok) (hst : tok.state = .active) (a r : String) :
    revoke tid a r s
      = (appendAudit (setTokenState s tid .revoked) ⟨"revoke", a, tid, r⟩, .ok ()) := by
  unfold revoke
  simp only [htok]
  simp only [hst]

theorem revoke_frozen (s : Sys) (tid : String) (tok : Token)
    (htok : s.tokens tid = some tok) (hst : tok.state = .frozen) (a r : String) :
    revoke tid a r s
      = (appendAudit (setTokenState s tid .revoked) ⟨"revoke", a, tid, r⟩, .ok ()) := by
  unfold revoke
  simp only [htok]
  simp only [hst]

theorem primitive_single_audit (s : Sys) (t2 : String) (tok2 : Token) (a r : String)
    (htok : s.tokens t2 = some tok2) :
    (revoke t2 a r s).1.audit.length = s.audit.length + 1 ∧
    (tok2.state ≠ .revoked →
      (freeze t2 r a s).1.audit.length = s.audit.length + 1 ∧
      (unfreeze t2 a r s).1.audit.length = s.audit.length + 1) := by
  cases hst : tok2.state with
  | active =>
    refine ⟨?_, fun _ => ⟨?_, ?_⟩⟩
    · rw [revoke_active s t2 tok2 htok hst a r]
      simp [audit_appendAudit, audit_setTokenState]
    · rw [freeze_active s t2 tok2 htok hst r a]
      simp [audit_appendAudit, audit_setTokenState]
    · rw [unfreeze_active s t2 tok2 htok hst a r]
      simp [audit_appendAudit]
  | frozen =>
    refine ⟨?_, fun _ => ⟨?_, ?_⟩⟩
    · rw [revoke_frozen s t2 tok2 htok hst a r]
      simp [audit_appendAudit, audit_setTokenState]
    · rw [freeze_frozen s t2 tok2 htok hst r a]
      simp [audit_appendAudit]
    · rw [unfreeze_frozen s t2 tok2 htok hst a r]
      simp [audit_appendAudit, audit_setTokenState]
  | revoked =>
    refine ⟨?_, fun hne => absurd rfl hne⟩
    rw [revoked_revoke_noop s t2 tok2 htok hst a r]
    simp [audit_appendAudit]

/-- C4 counterexample: on a token that is already frozen, freezing twice
appends two Audit Entries that both record no-ops — no entry records an
effecting freeze — so the appended pair is not one effecting entry and one
no-op entry as the claim states for every non-revoked token. -/
theorem freeze_twice_frozen_start_counterexample :
    ((freeze "t2" "r2" "a2"
        (freeze "t2" "r1" "a1"
          ⟨fun i => if i = "t2" then some ⟨.frozen, "m2", 7⟩ else none,
           fun _ => none, []⟩).1).1.audit
      = [⟨"freeze(no-op)", "a1", "t2", "r1"⟩, ⟨"freeze(no-op)", "a2", "t2", "r2"⟩]) ∧
    (∀ en ∈ (freeze "t2" "r2" "a2"
        (freeze "t2" "r1" "a1"
          ⟨fun i => if i = "t2" then some ⟨.frozen, "m2", 7⟩ else none,
           fun _ => none, []⟩).1).1.audit, en.action ≠ "freeze") := by
  constructor
  · rfl
  · decide

/-- C4 (amended): for every non-revoked token, freezing twice yields the
same token store as freezing once — the second call is a state no-op that
appends exactly one no-op Audit Entry — the first call appends exactly one
entry, and when the token was active the two appended entries are the
effecting freeze followed by the no-op; more generally every single
freeze, unfreeze or revoke call on a present token (non-revoked for freeze
and unfreeze) appends exactly one Audit Entry, no-op calls included. -/
theorem freeze_idempotent_audited (s : Sys) (tid : String) (tok : Token)
    (r1 a1 r2 a2 : String)
    (htok : s.tokens tid = some tok) (hnr : tok.state ≠ .revoked) :
    ((freeze tid r2 a2 (freeze tid r1 a1 s).1).1.tokens
        = (freeze tid r1 a1 s).1.tokens) ∧
    (tokenState (freeze tid r2 a2 (freeze tid r1 a1 s).1).1 tid
        = tokenState (freeze tid r1 a1 s).1 tid) ∧
    ((freeze tid r2 a2 (freeze tid r1 a1 s).1).1.audit
        = (freeze tid r1 a1 s).1.audit ++ [⟨"freeze(no-op)", a2, tid, r2⟩]) ∧
    ((freeze tid r1 a1 s).1.audit.length = s.audit.length + 1) ∧
    (tok.state = .active →
      (freeze tid r2 a2 (freeze tid r1 a1 s).1).1.audit
        = s.audit ++ [⟨"freeze", a1, tid, r1⟩, ⟨"freeze(no-op)", a2, tid, r2⟩]) ∧
    (∀ t2 tok2 a r, s.tokens t2 = some tok2 →
      (revoke t2 a r s).1.audit.length = s.audit.length + 1 ∧
      (tok2.state ≠ .revoked →
        (freeze t2 r a s).1.audit.length = s.audit.length + 1 ∧
        (unfreeze t2 a r s).1.audit.length = s.audit.length + 1)) := by
  have hfrozen1 : (freeze tid r1 a1 s).1.tokens tid
      = some { tok with state := .frozen } ∨
      ((freeze tid r1 a1 s).1.tokens tid = some tok ∧ tok.state = .frozen) := by
    cases hst : tok.state with
    | revoked => exact absurd hst hnr
    | active =>
      left
      rw [freeze_active s tid tok htok hst r1 a1]
      show (appendAudit (setTokenState s tid .frozen) _).tokens tid = _
      rw [tokens_appendAudit]
      exact tokens_setTokenState_self s tid tok .frozen htok
    | frozen =>
      right
      rw [freeze_frozen s tid tok htok hst r1 a1]
      exact ⟨htok, rfl⟩
  have hsecond : freeze tid r2 a2 (freeze tid r1 a1 s).1
      = (appendAudit (freeze tid r1 a1 s).1 ⟨"freeze(no-op)", a2, tid, r2⟩, .ok ()) := by
    rcases hfrozen1 with h1 | ⟨h1, h1st⟩
    · exact freeze_frozen (freeze tid r1 a1 s).1 tid { tok with state := .frozen } h1 rfl r2 a2
    · exact freeze_frozen (freeze tid r1 a1 s).1 tid tok h1 h1st r2 a2
  refine ⟨?_, ?_, ?_, ?_, ?_, fun t2 tok2 a r h2 => primitive_single_audit s t2 tok2 a r h2⟩
  · rw [hsecond]
    rfl
  · rw [hsecond]
    rfl
  · rw [hsecond]
    rfl
  · cases hst : tok.state with
    | revoked => exact absurd hst hnr
    | active =>
      rw [freeze_active s tid tok htok hst r1 a1]
      simp [audit_appendAudit, audit_setTokenState]
    | frozen =>
      rw [freeze_frozen s tid tok htok hst r1 a1]
      simp [audit_appendAudit]
  · intro hst
    rw [hsecond]
    show ((freeze tid r1 a1 s).1.audit ++ [⟨"freeze(no-op)", a2, tid, r2⟩]) = _
    rw [freeze_active s tid tok htok hst r1 a1]
    show ((appendAudit (setTokenState s tid .frozen) ⟨"freeze", a1, tid, r1⟩).audit
            ++ [⟨"freeze(no-op)", a2, tid, r2⟩]) = _
    rw [audit_appendAudit, audit_setTokenState]
    simp

/-- C4 witness: the amended idempotence statement applied to a store holding
one active token. -/
theorem freeze_idempotent_audited_witness :
    Sys.tokens ⟨fun i => if i = "t3" then some ⟨.active, "m3", 3⟩ else none,
        fun _ => none, []⟩ "t3" = some ⟨.active, "m3", 3⟩ ∧
    Token.state ⟨.active, "m3", 3⟩ ≠ .revoked ∧
    ((freeze "t3" "rB" "aB"
        (freeze "t3" "rA" "aA"
          ⟨fun i => if i = "t3" then some ⟨.active, "m3", 3⟩ else none,
           fun _ => none, []⟩).1).1.audit
      = (freeze "t3" "rA" "aA"
          ⟨fun i => if i = "t3" then some ⟨.active, "m3", 3⟩ else none,
           fun _ => none, []⟩).1.audit ++ [⟨"freeze(no-op)", "aB", "t3", "rB"⟩]) :=
  ⟨by simp, by simp,
   ((freeze_idempotent_audited
      ⟨fun i => if i = "t3" then some ⟨.active, "m3", 3⟩ else none, fun _ => none, []⟩
      "t3" ⟨.active, "m3", 3⟩ "rA" "aA" "rB" "aB" (by simp) (by simp)).2.2).1⟩

theorem events_setEvent_self (s : Sys) (eid : String) (ev : Event) :
    (setEvent s eid ev).events eid = some ev := by
  simp [setEvent]

theorem unfreeze_result_active (t a r : String) (s : Sys) (tok : Token)
    (htok : s.tokens t = some tok) (hnr : tok.state ≠ .revoked) :
    tokenState (unfreeze t a r s).1 t = some .active := by
  cases hst : tok.state with
  | revoked => exact absurd hst hnr
  | frozen =>
    rw [unfreeze_frozen s t tok htok hst a r]
    show tokenState (appendAudit (setTokenState s t .active) ⟨"unfreeze", a, t, r⟩) t = _
    rw [tokenState_appendAudit, tokenState_setTokenState]
    simp [htok]
  | active =>
    rw [unfreeze_active s t tok htok hst a r]
    show tokenState (appendAudit s ⟨"unfreeze(no-op)", a, t, r⟩) t = _
    rw [tokenState_appendAudit]
    simp [tokenState, htok, hst]

theorem revoke_result_revoked (t a r : String) (s : Sys) (tok : Token)
    (htok : s.tokens t = some tok) :
    tokenState (revoke t a r s).1 t = some .revoked := by
  cases hst : tok.state with
  | revoked =>
    rw [revoked_revoke_noop s t tok htok hst a r]
    show tokenState (appendAudit s ⟨"revoke(no-op)", a, t, r⟩) t = _
    rw [tokenState_appendAudit]
    simp [tokenState, htok, hst]
  | active =>
    rw [revoke_active s t tok htok hst a r]
    show tokenState (appendAudit (setTokenState s t .revoked) ⟨"revoke", a, t, r⟩) t = _
    rw [tokenState_appendAudit, tokenState_setTokenState]
    simp [htok]
  | frozen =>
    rw [revoke_frozen s t tok htok hst a r]
    show tokenState (appendAudit (setTokenState s t .revoked) ⟨"revoke", a, t, r⟩) t = _
    rw [tokenState_appendAudit, tokenState_setTokenState]
    simp [htok]

theorem submitVerification_unknown (s : Sys) (eid : String)
    (hev : s.events eid = none) (v : Bool) (rsp : String) (now : Nat) :
    submitVerification eid v rsp now s = (s, .error .EventNotFound) := by
  unfold submitVerification
  simp only [hev]

theorem submitVerification_not_open (s : Sys) (eid : String) (ev : Event)
    (hev : s.events eid = some ev) (hne : ev.status ≠ .waiting_verification)
    (v : Bool) (rsp : String) (now : Nat) :
    submitVerification eid v rsp now s = (s, .error .EventNotOpen) := by
  unfold submitVerification
  simp only [hev]
  rw [if_pos hne]

theorem submitVerification_expired (s : Sys) (eid : String) (ev : Event) (now : Nat)
    (hev : s.events eid = some ev) (hopen : ev.status = .waiting_verification)
    (hdl : ev.deadline < now) (v : Bool) (rsp : String) :
    submitVerification eid v rsp now s = (s, .error .VerificationExpired) := by
  unfold submitVerification
  simp only [hev]
  rw [if_neg (by simp [hopen])]
  rw [if_pos hdl]

theorem submitVerification_true_eq (eid rsp : String) (now : Nat) (s : Sys) (ev : Event)
    (tok : Token) (hev : s.events eid = some ev)
    (hopen : ev.status = .waiting_verification) (hdl : ¬ ev.deadline < now)
    (htok : s.tokens ev.tokenId = some tok) (hnr : tok.state ≠ .revoked) :
    submitVerification eid true rsp now s
      = (appendAudit
           (unfreeze ev.tokenId rsp "verification success"
             (setEvent s eid { ev with status := .verified_success })).1
           ⟨"verify", rsp, eid, "success"⟩,
         .ok ⟨.verified_success, .active⟩) := by
  unfold submitVerification
  simp only [hev]
  rw [if_neg (by simp [hopen])]
  rw [if_neg hdl]
  simp only [htok]
  rw [if_neg hnr]
  rw [if_pos trivial]

theorem submitVerification_false_eq (eid rsp : String) (now : Nat) (s : Sys) (ev : Event)
    (tok : Token) (hev : s.events eid = some ev)
    (hopen : ev.status = .waiting_verification) (hdl : ¬ ev.deadline < now)
    (htok : s.tokens ev.tokenId = some tok) :
    submitVerification eid false rsp now s
      = (appendAudit
           (revoke ev.tokenId rsp "verification failure"
             (setEvent s eid { ev with status := .verified_failure })).1
           ⟨"verify", rsp, eid, "failure"⟩,
         .ok ⟨.verified_failure, .revoked⟩) := by
  unfold submitVerification
  simp only [hev]
  rw [if_neg (by simp [hopen])]
  rw [if_neg hdl]
  simp only [htok]
  rw [if_neg (by simp)]

/-- C5: on an open Event with an unexpired deadline whose token exists and
is not revoked, a true verification moves the Event to verified_success and
leaves the token active, a false verification moves it to verified_failure
and revokes the token, and in both cases a second submission fails with
EventNotOpen; independently, submitVerification on an Event whose status is
not waiting_verification fails with EventNotOpen, and on an unknown event
id it fails with EventNotFound, both leaving the state unchanged. -/
theorem submitVerification_spec (eid rsp : String) (now : Nat) (s : Sys) (ev : Event)
    (tok : Token) (hev : s.events eid = some ev)
    (hopen : ev.status = .waiting_verification) (hdl : ¬ ev.deadline < now)
    (htok : s.tokens ev.tokenId = some tok) (hnr : tok.state ≠ .revoked) :
    ((submitVerification eid true rsp now s).2 = .ok ⟨.verified_success, .active⟩ ∧
     (submitVerification eid true rsp now s).1.events eid
        = some { ev with status := .verified_success } ∧
     tokenState (submitVerification eid true rsp now s).1 ev.tokenId = some .active ∧
     (∀ (v2 : Bool) (rsp2 : String) (now2 : Nat),
        submitVerification eid v2 rsp2 now2 (submitVerification eid true rsp now s).1
          = ((submitVerification eid true rsp now s).1, .error .EventNotOpen))) ∧
    ((submitVerification eid false rsp now s).2 = .ok ⟨.verified_failure, .revoked⟩ ∧
     (submitVerification eid false rsp now s).1.events eid
        = some { ev with status := .verified_failure } ∧
     tokenState (submitVerification eid false rsp now s).1 ev.tokenId = some .revoked ∧
     (∀ (v2 : Bool) (rsp2 : String) (now2 : Nat),
        submitVerification eid v2 rsp2 now2 (submitVerification eid false rsp now s).1
          = ((submitVerification eid false rsp now s).1, .error .EventNotOpen))) ∧
    (∀ (s2 : Sys) (e2 : String) (ev2 : Event) (v : Bool) (r2 : String) (n2 : Nat),
        s2.events e2 = some ev2 → ev2.status ≠ .waiting_verification →
        submitVerification e2 v r2 n2 s2 = (s2, .error .EventNotOpen)) ∧
    (∀ (s2 : Sys) (e2 : String) (v : Bool) (r2 : String) (n2 : Nat),
        s2.events e2 = none →
        submitVerification e2 v r2 n2 s2 = (s2, .error .EventNotFound)) := by
  have ht := submitVerification_true_eq eid rsp now s ev tok hev hopen hdl htok hnr
  have hf := submitVerification_false_eq eid rsp now s ev tok hev hopen hdl htok
  have hev_t : (submitVerification eid true rsp now s).1.events eid
      = some { ev with status := .verified_success } := by
    rw [ht]
    show (appendAudit (unfreeze ev.tokenId rsp "verification success"
           (setEvent s eid { ev with status := .verified_success })).1
           ⟨"verify", rsp, eid, "success"⟩).events eid = _
    rw [events_appendAudit, events_unfreeze]
    exact events_setEvent_self s eid _
  have hev_f : (submitVerification eid false rsp now s).1.events eid
      = some { ev with status := .verified_failure } := by
    rw [hf]
    show (appendAudit (revoke ev.tokenId rsp "verification failure"
           (setEvent s eid { ev with status := .verified_failure })).1
           ⟨"verify", rsp, eid, "failure"⟩).events eid = _
    rw [events_appendAudit, events_revoke]
    exact events_setEvent_self s eid _
  refine ⟨⟨by rw [ht], hev_t, ?_, fun v2 rsp2 now2 =>
            submitVerification_not_open _ eid _ hev_t (by simp) v2 rsp2 now2⟩,
          ⟨by rw [hf], hev_f, ?_, fun v2 rsp2 now2 =>
            submitVerification_not_open _ eid _ hev_f (by simp) v2 rsp2 now2⟩,
          fun s2 e2 ev2 v r2 n2 h2 h3 => submitVerification_not_open s2 e2 ev2 h2 h3 v r2 n2,
          fun s2 e2 v r2 n2 h2 => submitVerification_unknown s2 e2 h2 v r2 n2⟩
  · rw [ht]
    show tokenState (appendAudit (unfreeze ev.tokenId rsp "verification success"
           (setEvent s eid { ev with status := .verified_success })).1
           ⟨"verify", rsp, eid, "success"⟩) ev.tokenId = _
    rw [tokenState_appendAudit]
    refine unfreeze_result_active ev.tokenId rsp "verification success" _ tok ?_ hnr
    rw [tokens_setEvent]
    exact htok
  · rw [hf]
    show tokenState (appendAudit (revoke ev.tokenId rsp "verification failure"
           (setEvent s eid { ev with status := .verified_failure })).1
           ⟨"verify", rsp, eid, "failure"⟩) ev.tokenId = _
    rw [tokenState_appendAudit]
    refine revoke_result_revoked ev.tokenId rsp "verification failure" _ tok ?_
    rw [tokens_setEvent]
    exact htok

/-- C5 witness: the verification outcomes applied to the concrete open
event eA at time 50, before its deadline 100. -/
theorem submitVerification_spec_witness :
    Sys.events sampleOpenSys "eA"
        = some ⟨"tA", 65, .MEDIUM, .challenge, .waiting_verification, 100, false⟩ ∧
    (submitVerification "eA" true "rsp" 50 sampleOpenSys).2
        = .ok ⟨.verified_success, .active⟩ :=
  ⟨by simp [sampleOpenSys],
   (submitVerification_spec "eA" "rsp" 50 sampleOpenSys
      ⟨"tA", 65, .MEDIUM, .challenge, .waiting_verification, 100, false⟩
      ⟨.frozen, "mA", 5⟩ (by simp [sampleOpenSys]) rfl (by decide)
      (by simp [sampleOpenSys]) (by decide)).1.1⟩

theorem expireIfDue_due_eq (eid : String) (now : Nat) (s : Sys) (ev : Event)
    (tok : Token) (hev : s.events eid = some ev)
    (hopen : ev.status = .waiting_verification) (hdl : ev.deadline < now)
    (htok : s.tokens ev.tokenId = some tok) :
    expireIfDue eid now s
      = (appendAudit
           (revoke ev.tokenId "system" "verification timeout"
             (setEvent s eid { ev with status := .verified_failure })).1
           ⟨"verify", "system", eid, "timeout"⟩,
         .ok ()) := by
  unfold expireIfDue
  simp only [hev]
  rw [if_pos ⟨hopen, hdl⟩]
  simp only [htok]

/-- C6: an Event still waiting_verification whose deadline lies strictly in
the past is expired by expireIfDue without any submitVerification call —
the Event moves to verified_failure and the token is revoked — while a
submitVerification arriving after the deadline fails with
VerificationExpired and leaves the state unchanged. -/
theorem expiry_spec (eid : String) (now : Nat) (s : Sys) (ev : Event) (tok : Token)
    (hev : s.events eid = some ev) (hopen : ev.status = .waiting_verification)
    (hdl : ev.deadline < now) (htok : s.tokens ev.tokenId = some tok) :
    (expireIfDue eid now s).2 = .ok () ∧
    (expireIfDue eid now s).1.events eid = some { ev with status := .verified_failure } ∧
    tokenState (expireIfDue eid now s).1 ev.tokenId = some .revoked ∧
    (∀ (v : Bool) (rsp : String),
       submitVerification eid v rsp now s = (s, .error .VerificationExpired)) := by
  have he := expireIfDue_due_eq eid now s ev tok hev hopen hdl htok
  refine ⟨by rw [he], ?_, ?_,
          fun v rsp => submitVerification_expired s eid ev now hev hopen hdl v rsp⟩
  · rw [he]
    show (appendAudit (revoke ev.tokenId "system" "verification timeout"
           (setEvent s eid { ev with status := .verified_failure })).1
           ⟨"verify", "system", eid, "timeout"⟩).events eid = _
    rw [events_appendAudit, events_revoke]
    exact events_setEvent_self s eid _
  · rw [he]
    show tokenState (appendAudit (revoke ev.tokenId "system" "verification timeout"
           (setEvent s eid { ev with status := .verified_failure })).1
           ⟨"verify", "system", eid, "timeout"⟩) ev.tokenId = _
    rw [tokenState_appendAudit]
    refine revoke_result_revoked ev.tokenId "system" "verification timeout" _ tok ?_
    rw [tokens_setEvent]
    exact htok

/-- C6 witness: the expiry behaviour applied to the concrete open event eA
at time 200, past its deadline 100. -/
theorem expiry_spec_witness :
    Sys.events sampleOpenSys "eA"
        = some ⟨"tA", 65, .MEDIUM, .challenge, .waiting_verification, 100, false⟩ ∧
    (expireIfDue "eA" 200 sampleOpenSys).2 = .ok () ∧
    tokenState (expireIfDue "eA" 200 sampleOpenSys).1 "tA" = some .revoked :=
  ⟨by simp [sampleOpenSys],
   (expiry_spec "eA" 200 sampleOpenSys
      ⟨"tA", 65, .MEDIUM, .challenge, .waiting_verification, 100, false⟩
      ⟨.frozen, "mA", 5⟩ (by simp [sampleOpenSys]) rfl (by decide)
      (by simp [sampleOpenSys])).1,
   (expiry_spec "eA" 200 sampleOpenSys
      ⟨"tA", 65, .MEDIUM, .challenge, .waiting_verification, 100, false⟩
      ⟨.frozen, "mA", 5⟩ (by simp [sampleOpenSys]) rfl (by decide)
      (by simp [sampleOpenSys])).2.2.1⟩

theorem analyze_approve_eq (tid eid actor : String) (score : Int) (now : Nat) (s : Sys)
    (tok : Token) (htok : s.tokens tid = some tok) (hnr : tok.state ≠ .revoked)
    (h0 : 0 ≤ score) (h1 : score ≤ 49) :
    analyze tid eid actor score now s
      = (appendAudit (setEvent s eid ⟨tid, score, .LOW, .approve, .approved, 0, false⟩)
           ⟨"analyze", actor, eid, "approve"⟩,
         .ok ⟨eid, .approve, .approved, tok.state⟩) := by
  unfold analyze
  simp only [htok]
  rw [if_neg hnr]
  rw [classify_low score h0 h1]

/-- C8: analyze with an approve-classified score (0..49) on an existing
non-revoked token leaves the token store — and so the state of every
token, active or frozen — exactly as before the call, while the new Event
is created directly in status approved with decision approve and the call
reports the untouched token state. -/
theorem analyze_approve_frame (tid eid actor : String) (score : Int) (now : Nat)
    (s : Sys) (tok : Token) (htok : s.tokens tid = some tok)
    (hnr : tok.state ≠ .revoked) (h0 : 0 ≤ score) (h1 : score ≤ 49) :
    (analyze tid eid actor score now s).1.tokens = s.tokens ∧
    tokenState (analyze tid eid actor score now s).1 tid = tokenState s tid ∧
    (analyze tid eid actor score now s).1.events eid
      = some ⟨tid, score, .LOW, .approve, .approved, 0, false⟩ ∧
    (analyze tid eid actor score now s).2 = .ok ⟨eid, .approve, .approved, tok.state⟩ := by
  have ha := analyze_approve_eq tid eid actor score now s tok htok hnr h0 h1
  refine ⟨?_, ?_, ?_, by rw [ha]⟩
  · rw [ha]
    show (appendAudit (setEvent s eid ⟨tid, score, .LOW, .approve, .approved, 0, false⟩)
           ⟨"analyze", actor, eid, "approve"⟩).tokens = s.tokens
    rw [tokens_appendAudit, tokens_setEvent]
  · rw [ha]
    show tokenState (appendAudit (setEvent s eid ⟨tid, score, .LOW, .approve, .approved, 0, false⟩)
           ⟨"analyze", actor, eid, "approve"⟩) tid = tokenState s tid
    rw [tokenState_appendAudit, tokenState_setEvent]
  · rw [ha]
    show (appendAudit (setEvent s eid ⟨tid, score, .LOW, .approve, .approved, 0, false⟩)
           ⟨"analyze", actor, eid, "approve"⟩).events eid = _
    rw [events_appendAudit]
    exact events_setEvent_self s eid _

/-- C8 witness: a low-risk analyze call on the concrete frozen token tA
leaves its token store untouched. -/
theorem analyze_approve_frame_witness :
    Sys.tokens sampleOpenSys "tA" = some ⟨.frozen, "mA", 5⟩ ∧
    (analyze "tA" "eB" "actor" 20 0 sampleOpenSys).1.tokens
        = Sys.tokens sampleOpenSys ∧
    tokenState (analyze "tA" "eB" "actor" 20 0 sampleOpenSys).1 "tA"
        = tokenState sampleOpenSys "tA" :=
  ⟨by simp [sampleOpenSys],
   (analyze_approve_frame "tA" "eB" "actor" 20 0 sampleOpenSys ⟨.frozen, "mA", 5⟩
      (by simp [sampleOpenSys]) (by decide) (by decide) (by decide)).1,
   (analyze_approve_frame "tA" "eB" "actor" 20 0 sampleOpenSys ⟨.frozen, "mA", 5⟩
      (by simp [sampleOpenSys]) (by decide) (by decide) (by decide)).2.1⟩

/-- C1 witness: the partition evaluated at 101, 20, 65 and 90. -/
theorem classify_partition_witness :
    classify 101 = .error .InvalidScore ∧
    classify 20 = .ok (.LOW, .approve) ∧
    classify 65 = .ok (.MEDIUM, .challenge) ∧
    classify 90 = .ok (.HIGH, .challenge_high) :=
  ⟨(classify_partition 101).1 (Or.inr (by decide)),
   (classify_partition 20).2.1 (by decide),
   (classify_partition 65).2.2.1 (by decide),
   (classify_partition 90).2.2.2 (by decide)⟩

end TokenTrust

namespace Dashboard

theorem map_noop_of_no_match (evTid st : String) (tokens : List TokenRow)
    (hall : ∀ t ∈ tokens, t.token_id ≠ evTid) :
    (tokens.map fun token =>
        if token.token_id = evTid then { token with status := st } else token)
      = tokens := by
  induction tokens with
  | nil => rfl
  | cons hd tl ih =>
    simp only [List.map_cons]
    rw [if_neg (hall hd (List.mem_cons_self hd tl))]
    rw [ih (fun t ht => hall t (List.mem_cons_of_mem hd ht))]

/-- C9: the token.frozen and token.revoked socket handlers preserve the
length and order of the token list, replace exactly the status field of the
rows whose token_id equals the payload token id with frozen (respectively
revoked) while keeping every other field of those rows, leave every
non-matching row unchanged, and leave the whole list unchanged when no row
matches. -/
theorem socket_status_handlers_frame (evTid : String) (tokens : List TokenRow) :
    (onTokenFrozen evTid tokens).length = tokens.length ∧
    (onTokenRevoked evTid tokens).length = tokens.length ∧
    List.Forall₂ (fun t u =>
        u.token_id = t.token_id ∧ u.customer_id = t.customer_id ∧
        u.amount = t.amount ∧ u.created_at = t.created_at ∧
        u.status = (if t.token_id = evTid then "frozen" else t.status))
      tokens (onTokenFrozen evTid tokens) ∧
    List.Forall₂ (fun t u =>
        u.token_id = t.token_id ∧ u.customer_id = t.customer_id ∧
        u.amount = t.amount ∧ u.created_at = t.created_at ∧
        u.status = (if t.token_id = evTid then "revoked" else t.status))
      tokens (onTokenRevoked evTid tokens) ∧
    ((∀ t ∈ tokens, t.token_id ≠ evTid) →
        onTokenFrozen evTid tokens = tokens ∧ onTokenRevoked evTid tokens = tokens) := by
  refine ⟨by simp [onTokenFrozen], by simp [onTokenRevoked], ?_, ?_,
          fun hall => ⟨map_noop_of_no_match evTid "frozen" tokens hall,
                       map_noop_of_no_match evTid "revoked" tokens hall⟩⟩
  · induction tokens with
    | nil => exact List.Forall₂.nil
    | cons hd tl ih =>
      simp only [onTokenFrozen, List.map_cons] at ih ⊢
      refine List.Forall₂.cons ?_ ih
      by_cases hm : hd.token_id = evTid
      · simp [hm]
      · simp [hm]
  · induction tokens with
    | nil => exact List.Forall₂.nil
    | cons hd tl ih =>
      simp only [onTokenRevoked, List.map_cons] at ih ⊢
      refine List.Forall₂.cons ?_ ih
      by_cases hm : hd.token_id = evTid
      · simp [hm]
      · simp [hm]

/-- C9 witness: a list whose single row does not match the payload id is
left unchanged by both handlers. -/
theorem socket_status_handlers_frame_witness :
    (∀ t ∈ [(⟨"tZ", "active", "c1", 10, "d1"⟩ : TokenRow)], t.token_id ≠ "tX") ∧
    (onTokenFrozen "tX" [⟨"tZ", "active", "c1", 10, "d1"⟩]
        = [⟨"tZ", "active", "c1", 10, "d1"⟩] ∧
     onTokenRevoked "tX" [⟨"tZ", "active", "c1", 10, "d1"⟩]
        = [⟨"tZ", "active", "c1", 10, "d1"⟩]) :=
  ⟨by decide,
   (socket_status_handlers_frame "tX" [⟨"tZ", "active", "c1", 10, "d1"⟩]).2.2.2.2
     (by decide)⟩

theorem connect_existing (svc : SocketService) (s : Socket)
    (h : svc.socket = some s) : connect svc = (s, svc) := by
  unfold connect
  rw [h]

/-- C10: connect is idempotent — when a socket is already present it
returns that socket and leaves the service state unchanged, creating no
connection and registering no handler, and a second connect after any
connect returns exactly the socket and service state the first call
produced. -/
theorem connect_idempotent (svc : SocketService) (s : Socket)
    (h : svc.socket = some s) :
    connect svc = (s, svc) ∧
    (∀ svc2 : SocketService,
        connect (connect svc2).2 = ((connect svc2).1, (connect svc2).2)) := by
  refine ⟨connect_existing svc s h, fun svc2 => ?_⟩
  cases hs : svc2.socket with
  | some s2 =>
    have h1 := connect_existing svc2 s2 hs
    rw [h1]
    exact connect_existing svc2 s2 hs
  | none =>
    have h2 : (connect svc2).2.socket = some (connect svc2).1 := by
      unfold connect
      rw [hs]
    exact connect_existing _ _ h2

/-- C10 witness: connect on a service that already holds a socket returns
that socket with the service unchanged. -/
theorem connect_idempotent_witness :
    SocketService.socket ⟨some ⟨"u", ["connect"]⟩, true⟩ = some ⟨"u", ["connect"]⟩ ∧
    connect ⟨some ⟨"u", ["connect"]⟩, true⟩
      = (⟨"u", ["connect"]⟩, ⟨some ⟨"u", ["connect"]⟩, true⟩) :=
  ⟨rfl,
   (connect_idempotent ⟨some ⟨"u", ["connect"]⟩, true⟩ ⟨"u", ["connect"]⟩ rfl).1⟩

end Dashboard
